import Mathlib

/-!
# Verification of `scrapeMeta.mjs` (url-preview)

A shallow embedding of the two-tier `{title, previewImage}` extraction
pipeline of `src/scrapeMeta.mjs`:

* string helpers (`normalizeTitle`, `absolutize`) and the static Cheerio
  extractor `extractCheerio`, modelled over an abstract parsed document;
* the in-page rendered heuristic (`pageEvaluate`) run on escalation;
* the per-URL orchestration (`scrapeOne`) and the batch loop with the
  lazily launched shared browser, modelled by explicit state passing with
  effect counters (launches, pages opened/closed, render attempts, close
  calls).

DOM queries and WHATWG URL resolution are external capabilities; they are
modelled as abstract inputs (a document structure holding the attribute
values each selector would return, and a `resolve : String → String →
Option String` oracle where `none` models a throwing `new URL`).
-/

namespace UrlPreview

/-! ## JS string primitives used by the source -/

/-- JS whitespace test used by `String.prototype.trim` (restricted to the
ASCII whitespace that can occur in our model). -/
def jsWs (c : Char) : Bool :=
  c = ' ' || c = '\t' || c = '\n' || c = '\r'

/-- Trim on character lists: drop leading and trailing whitespace. -/
def trimL (l : List Char) : List Char :=
  ((l.dropWhile jsWs).reverse.dropWhile jsWs).reverse

/-- Embedding of JS `raw.trim()`. -/
def jsTrim (s : String) : String :=
  ⟨trimL s.data⟩

/-- Is a character the vertical bar? -/
def isBar (c : Char) : Bool := c = '|'

/-- Is a character anything but the vertical bar? -/
def notBar (c : Char) : Bool := c ≠ '|'

/-- Embedding of JS `raw.includes('|')`. -/
def jsIncludesBar (s : String) : Bool :=
  s.data.any isBar

/-- Embedding of JS `raw.split('|')[0]`: the substring before the first
vertical bar (the whole string when no bar occurs). -/
def jsSplitBarHead (s : String) : String :=
  ⟨s.data.takeWhile notBar⟩

/-- List-level prefix test (used to embed JS regex substring matching). -/
def startsWithL : List Char → List Char → Bool
  | [], _ => true
  | _ :: _, [] => false
  | p :: ps, c :: cs => p = c && startsWithL ps cs

/-- Does `pat` occur as a contiguous substring of `l`? -/
def hasSub (pat : List Char) : List Char → Bool
  | [] => startsWithL pat []
  | c :: rest => startsWithL pat (c :: rest) || hasSub pat rest

/-- Embedding of the JS regex test `/^https?:\/\//i.test(src)`. -/
def startsWithHttpScheme (s : String) : Bool :=
  let l := s.data.map Char.toLower
  startsWithL "http://".data l || startsWithL "https://".data l

/-- Embedding of JS `src.endsWith('.svg')` (case-sensitive, as in the
source). -/
def endsWithSvg (s : String) : Bool :=
  startsWithL ".svg".data.reverse s.data.reverse

/-- Embedding of the JS regex test `/sprite|icon/i.test(src)`. -/
def spriteIconTest (s : String) : Bool :=
  let l := s.data.map Char.toLower
  hasSub "sprite".data l || hasSub "icon".data l

/-! ## Shared helpers of `scrapeMeta.mjs` (lines 69-79) -/

/-- Embedding of `normalizeTitle` (line 69-70):
`raw.includes('|') ? raw.split('|')[0].trim() : raw.trim() || null`.
`none` models JS `null`; note that the bar branch can return `some ""`. -/
def normalizeTitle (raw : String) : Option String :=
  if jsIncludesBar raw then some (jsTrim (jsSplitBarHead raw))
  else if jsTrim raw = "" then none else some (jsTrim raw)

/-- Embedding of `absolutize` (lines 72-79). Here `resolve src base = none` models the `new
URL(src, base)` constructor throwing; `some h` models a successful
resolution with `href = h`. -/
def absolutize (resolve : String → String → Option String)
    (src base : String) : String :=
  if src = "" then src
  else if startsWithHttpScheme src then src
  else match resolve src base with
    | some h => h
    | none => src

/-! ## Static tier: `extractCheerio` (lines 81-105)

The parsed document is abstracted by the attribute values Cheerio would
return for each of the six selectors: for each selector, the `content`,
`href` and `src` attributes of the first matching element (`none` =
attribute absent or no element matched). -/

/-- Attribute values of the first element matched by one selector. -/
structure SelAttrs where
  content : Option String
  href : Option String
  src : Option String
deriving DecidableEq

/-- A selector matching nothing: all three attribute reads are `none`. -/
def SelAttrs.empty : SelAttrs := ⟨none, none, none⟩

/-- Abstract static document: `<title>` text plus the six selectors of
`extractCheerio`, in source order. -/
structure StaticDoc where
  titleText : String
  ogImageProp : SelAttrs
  ogImageName : SelAttrs
  twitterImage : SelAttrs
  itempropImage : SelAttrs
  imageSrcLink : SelAttrs
  imgTag : SelAttrs
deriving DecidableEq

/-- The selector list of lines 86-93, in priority order. -/
def selectorList (d : StaticDoc) : List SelAttrs :=
  [d.ogImageProp, d.ogImageName, d.twitterImage,
   d.itempropImage, d.imageSrcLink, d.imgTag]

/-- Line 97: `$(sel).attr('content') ?? $(sel).attr('href') ??
$(sel).attr('src')` — nullish coalescing, so a present-but-empty
attribute is kept. -/
def candVal (a : SelAttrs) : Option String :=
  match a.content with
  | some v => some v
  | none => match a.href with
    | some v => some v
    | none => a.src

/-- The loop of lines 95-102: first selector whose coalesced value is
truthy wins and is absolutized; later selectors are not consulted. -/
def firstImgVal (resolve : String → String → Option String)
    (base : String) : List SelAttrs → Option String
  | [] => none
  | a :: rest =>
    match candVal a with
    | some v =>
      if v = "" then firstImgVal resolve base rest
      else some (absolutize resolve v base)
    | none => firstImgVal resolve base rest

/-- Embedding of `extractCheerio(html, baseUrl)` over the abstract document. -/
def extractCheerio (resolve : String → String → Option String)
    (d : StaticDoc) (baseUrl : String) : Option String × Option String :=
  (normalizeTitle d.titleText, firstImgVal resolve baseUrl (selectorList d))

/-! ## Rendered tier: the in-page heuristic of `page.evaluate` (lines 130-165)

The rendered document is abstracted by the `content`/`href` attribute
each meta/link candidate query would return (`none` = element or
attribute missing; JS `||` chaining makes `content ?? href` distinctions
irrelevant here because empty strings also fall through), the list of
`document.images` with their `currentSrc`/`src`/natural dimensions, the
`document.title` string and `location.href`. -/

/-- One element of `document.images`. -/
structure ImgEl where
  currentSrc : String
  src : String
  naturalWidth : Nat
  naturalHeight : Nat
deriving DecidableEq

/-- The object built on lines 148-153 for one image. -/
structure ImgObj where
  src : String
  area : Nat
  w : Nat
  h : Nat
deriving DecidableEq

/-- Abstract rendered document. -/
structure RenderedDoc where
  ogImageSecure : Option String
  ogImageProp : Option String
  ogImageName : Option String
  twitterImage : Option String
  itempropImage : Option String
  imageSrcLink : Option String
  images : List ImgEl
  docTitle : String
  locationHref : String
deriving DecidableEq

/-- The in-page `abs` helper (line 131): `try { return new URL(u,
location.href).href } catch { return u }`. -/
def jsAbs (resolve : String → String → Option String)
    (u href : String) : String :=
  match resolve u href with
  | some h => h
  | none => u

/-- The `||` chain of lines 134-141: first truthy value, else `null`.
An empty string is falsy and falls through, so the result is never
`some ""`. -/
def firstTruthy : List (Option String) → Option String
  | [] => none
  | some v :: rest => if v = "" then firstTruthy rest else some v
  | none :: rest => firstTruthy rest

/-- The meta/link candidate of lines 134-141, in priority order. -/
def renderedCandidate (d : RenderedDoc) : Option String :=
  firstTruthy [d.ogImageSecure, d.ogImageProp, d.ogImageName,
               d.twitterImage, d.itempropImage, d.imageSrcLink]

/-- Embedding of `looksBad` (lines 143-144) on a present string; the `!src` disjunct
covers the empty string. -/
def looksBad (src : String) : Bool :=
  src = "" || endsWithSvg src || spriteIconTest src

/-- The guard `!candidate || looksBad(candidate)` of line 146. -/
def candidateRejected (d : RenderedDoc) : Bool :=
  match renderedCandidate d with
  | none => true
  | some v => looksBad v

/-- Lines 148-153: `{src: img.currentSrc || img.src, area, w, h}`. -/
def imgObj (i : ImgEl) : ImgObj :=
  { src := if i.currentSrc = "" then i.src else i.currentSrc
    area := i.naturalWidth * i.naturalHeight
    w := i.naturalWidth
    h := i.naturalHeight }

/-- The filter of line 154: both dimensions at least 200 and not an SVG
source. -/
def keepObj (o : ImgObj) : Bool :=
  200 ≤ o.w && 200 ≤ o.h && !endsWithSvg o.src

/-- The mapped-and-filtered image list (lines 147-154). -/
def keptImages (d : RenderedDoc) : List ImgObj :=
  (d.images.map imgObj).filter keepObj

/-- Stable insertion for a descending-by-area sort: an element moves past
only strictly larger areas, so ties keep their original order, matching
the stable JS `sort((a, b) => b.area - a.area)`. -/
def insertDescByArea (o : ImgObj) : List ImgObj → List ImgObj
  | [] => [o]
  | y :: ys => if o.area < y.area then y :: insertDescByArea o ys
               else o :: y :: ys

/-- Stable descending-by-area sort (line 155). -/
def sortDescByArea : List ImgObj → List ImgObj
  | [] => []
  | x :: xs => insertDescByArea x (sortDescByArea xs)

/-- The sorted qualifying images of lines 147-155. -/
def sortedKept (d : RenderedDoc) : List ImgObj :=
  sortDescByArea (keptImages d)

/-- Lines 146-157: when the candidate is missing or looks bad, the top
sorted image (if any) replaces it; otherwise the candidate — possibly
still the bad one — is kept. -/
def candAfterFallback (d : RenderedDoc) : Option String :=
  match renderedCandidate d with
  | none =>
    match sortedKept d with
    | [] => none
    | top :: _ => some top.src
  | some v =>
    if looksBad v then
      match sortedKept d with
      | [] => some v
      | top :: _ => some top.src
    else some v

/-- JS `candidate || null` (line 164). -/
def jsTruthyOpt : Option String → Option String
  | some v => if v = "" then none else some v
  | none => none

/-- The rendered title logic of lines 161-162:
`let ttl = document.title || null; if (ttl?.includes('|')) ttl =
ttl.split('|')[0].trim();`. Note the bar-free branch does not trim. -/
def renderedTitle (raw : String) : Option String :=
  if raw = "" then none
  else if jsIncludesBar raw then some (jsTrim (jsSplitBarHead raw))
  else some raw

/-- The whole `page.evaluate` callback (lines 130-165): returns
`{title, previewImage}`. -/
def pageEvaluate (resolve : String → String → Option String)
    (d : RenderedDoc) : Option String × Option String :=
  let cand := (candAfterFallback d).map
    (fun v => jsAbs resolve v d.locationHref)
  (renderedTitle d.docTitle, jsTruthyOpt cand)

/-! ## Orchestration: `scrapeOne` (lines 112-171) and the main loop
(lines 176-195)

`fetch` and `page.goto` are external; their per-URL outcomes are part of
the environment. Browser-session effects are tracked by counters on an
explicit state. -/

/-- Outcome of the static `fetch` (lines 114-119): a parsed document, a
non-ok HTTP status, or a rejected promise with a transport message. -/
inductive FetchOutcome where
  | ok (doc : StaticDoc)
  | httpError (status : Nat) (statusText : String)
  | netError (msg : String)
deriving DecidableEq

/-- Outcome of the rendered navigation (line 128): a rendered document,
or a thrown navigation error. -/
inductive RenderOutcome where
  | ok (rdoc : RenderedDoc)
  | navError (msg : String)
deriving DecidableEq

/-- Per-URL environment: what the network and the browser would do. -/
structure UrlEnv where
  fetch : FetchOutcome
  render : RenderOutcome
deriving DecidableEq

/-- Browser-session bookkeeping: the `browser` variable of line 110 plus
effect counters. -/
structure BState where
  launched : Bool
  launches : Nat
  pagesOpened : Nat
  pagesClosed : Nat
  renderAttempts : Nat
deriving DecidableEq

/-- Initial state: `let browser = null`. -/
def BState.init : BState := ⟨false, 0, 0, 0, 0⟩

/-- JS falsiness of a nullable string (`!title`, `!previewImage`):
`null` and `""` are falsy. -/
def jsFalsyOptStr : Option String → Bool
  | none => true
  | some v => v = ""

/-- Success value of `scrapeOne` (line 170). -/
structure SRecord where
  url : String
  title : Option String
  previewImage : Option String
deriving DecidableEq

/-- Embedding of `scrapeOne(targetUrl)` (lines 112-171): `Except.error` models a
thrown error propagating to the caller. On escalation the page-open,
render-attempt and (only on success) page-close counters advance; a
navigation error propagates with the page still open — the source has no
`try/finally` around lines 126-167. -/
def scrapeOne (resolve : String → String → Option String)
    (e : UrlEnv) (url : String) (st : BState) :
    Except String SRecord × BState :=
  match e.fetch with
  | .httpError s t => (.error (toString s ++ " " ++ t), st)
  | .netError m => (.error m, st)
  | .ok doc =>
    let r := extractCheerio resolve doc url
    if jsFalsyOptStr r.1 && jsFalsyOptStr r.2 then
      let st1 := if st.launched then st
                 else { st with launched := true,
                                launches := st.launches + 1 }
      let st2 := { st1 with pagesOpened := st1.pagesOpened + 1,
                            renderAttempts := st1.renderAttempts + 1 }
      match e.render with
      | .navError m => (.error m, st2)
      | .ok rdoc =>
        let p := pageEvaluate resolve rdoc
        (.ok ⟨url, p.1, p.2⟩,
         { st2 with pagesClosed := st2.pagesClosed + 1 })
    else (.ok ⟨url, r.1, r.2⟩, st)

/-- One output record of the main loop: a JS object whose fields may be
absent (`title`/`previewImage` absent on the error shape, `error` absent
on the success shape). -/
structure OutRecord where
  url : String
  title : Option (Option String)
  previewImage : Option (Option String)
  error : Option String
deriving DecidableEq

/-- The record pushed for one URL: the success value of `scrapeOne`, or
`{url, error: err.message}` from the catch (lines 181-184). -/
def outRecOf (url : String) : Except String SRecord → OutRecord
  | .ok rec => ⟨rec.url, some rec.title, some rec.previewImage, none⟩
  | .error m => ⟨url, none, none, some m⟩

/-- One iteration of the loop on lines 179-185: push the success record,
or catch and push `{url, error: err.message}`. -/
def stepUrl (resolve : String → String → Option String)
    (env : String → UrlEnv) (acc : List OutRecord × BState)
    (url : String) : List OutRecord × BState :=
  (acc.1 ++ [outRecOf url (scrapeOne resolve (env url) url acc.2).1],
   (scrapeOne resolve (env url) url acc.2).2)

/-- The per-URL loop of lines 178-185, from the initial state. -/
def runUrls (resolve : String → String → Option String)
    (env : String → UrlEnv) (urls : List String) :
    List OutRecord × BState :=
  urls.foldl (stepUrl resolve env) ([], BState.init)

/-- Outcome of the whole run: the records, the final session state, how
many times `browser.close()` was invoked, and whether the process exits
cleanly. -/
structure RunOutcome where
  records : List OutRecord
  finalState : BState
  closeCalls : Nat
  exitOk : Bool
deriving DecidableEq

/-- The main IIFE (lines 176-195). `printFails` injects an unexpected
error at the output step (line 189, e.g. a broken stdout), the only
point where an error can escape the per-URL handling: the normal-path
close of line 186 has then already run, and the catch of lines 190-193
runs `if (browser) await browser.close()` again. -/
def runMain (resolve : String → String → Option String)
    (env : String → UrlEnv) (urls : List String)
    (printFails : Bool) : RunOutcome :=
  let r := runUrls resolve env urls
  let c1 := if r.2.launched then 1 else 0
  if printFails then
    ⟨r.1, r.2, c1 + (if r.2.launched then 1 else 0), false⟩
  else ⟨r.1, r.2, c1, true⟩

/-- Does a URL's static pass succeed with both fields falsy (the
escalation condition of line 124)? -/
def escalates (resolve : String → String → Option String)
    (e : UrlEnv) (url : String) : Bool :=
  match e.fetch with
  | .ok doc =>
    jsFalsyOptStr (extractCheerio resolve doc url).1 &&
    jsFalsyOptStr (extractCheerio resolve doc url).2
  | _ => false

/-- The session state after an escalation: a launch if none had
happened, one page opened, one render attempt, and a page close only
when navigation succeeded. -/
def escalatedState (e : UrlEnv) (st : BState) : BState :=
  let st1 := if st.launched then st
             else { st with launched := true, launches := st.launches + 1 }
  let st2 := { st1 with pagesOpened := st1.pagesOpened + 1,
                        renderAttempts := st1.renderAttempts + 1 }
  match e.render with
  | .navError _ => st2
  | .ok _ => { st2 with pagesClosed := st2.pagesClosed + 1 }

/-- The session state threaded through the loop, ignoring the records. -/
def runState (resolve : String → String → Option String)
    (env : String → UrlEnv) (urls : List String) (st : BState) : BState :=
  urls.foldl (fun s u => (scrapeOne resolve (env u) u s).2) st

/-- The thrown-or-returned value of `scrapeOne`, computed without the
session state (used to state batch independence). -/
def resultFor (resolve : String → String → Option String)
    (e : UrlEnv) (url : String) : Except String SRecord :=
  match e.fetch with
  | .httpError s t => .error (toString s ++ " " ++ t)
  | .netError m => .error m
  | .ok doc =>
    let r := extractCheerio resolve doc url
    if jsFalsyOptStr r.1 && jsFalsyOptStr r.2 then
      match e.render with
      | .navError m => .error m
      | .ok rdoc =>
        .ok ⟨url, (pageEvaluate resolve rdoc).1,
             (pageEvaluate resolve rdoc).2⟩
    else .ok ⟨url, r.1, r.2⟩

/-- The output record one URL contributes, as a pure function of that
URL's own environment. -/
def recordFor (resolve : String → String → Option String)
    (env : String → UrlEnv) (url : String) : OutRecord :=
  outRecOf url (resultFor resolve (env url) url)

/-! ## Spec-side definitions (for refinement comparisons)

These follow the wording of the specification, to be compared with the
definitions embedded from the source. -/

/-- The §4.2 title rule as the spec words it: take the text, trimmed; if
it contains a bar, keep the substring before the first bar, trimmed; an
empty string after trimming becomes `null`, never the empty string. -/
def specTitleRule (raw : String) : Option String :=
  let t := jsTrim raw
  let r := if jsIncludesBar t then jsTrim (jsSplitBarHead t) else t
  if r = "" then none else some r

/-- The title rule as amended: the empty-to-null mapping applies only
when no bar is present; with a bar, the trimmed prefix is returned even
when it is empty. -/
def specTitleAmendedRule (raw : String) : Option String :=
  if jsIncludesBar (jsTrim raw) then some (jsTrim (jsSplitBarHead (jsTrim raw)))
  else if jsTrim raw = "" then none else some (jsTrim raw)

/-- The §4.2 image rule as the spec words it: the candidate values in
fixed priority order, first non-empty match, resolved against the page
URL. -/
def specStaticImage (resolve : String → String → Option String)
    (d : StaticDoc) (base : String) : Option String :=
  (((selectorList d).filterMap candVal).find? (fun v => v ≠ "")).map
    (fun v => absolutize resolve v base)

/-! ## Character and trimming lemmas -/

lemma jsWs_isBar_false {c : Char} (h : jsWs c = true) : isBar c = false := by
  simp only [jsWs, Bool.or_eq_true, decide_eq_true_eq] at h
  rcases h with ((h | h) | h) | h <;> subst h <;> decide

lemma jsWs_notBar {c : Char} (h : jsWs c = true) : notBar c = true := by
  simp only [jsWs, Bool.or_eq_true, decide_eq_true_eq] at h
  rcases h with ((h | h) | h) | h <;> subst h <;> decide

lemma any_isBar_dropWhile_jsWs (l : List Char) :
    ((l.dropWhile jsWs).any isBar) = l.any isBar := by
  induction l with
  | nil => rfl
  | cons c t ih =>
    by_cases h : jsWs c = true
    · rw [List.dropWhile_cons_of_pos h, ih, List.any_cons,
        jsWs_isBar_false h, Bool.false_or]
    · rw [List.dropWhile_cons_of_neg h]

lemma trimL_any_isBar (l : List Char) : (trimL l).any isBar = l.any isBar := by
  unfold trimL
  rw [List.any_reverse, any_isBar_dropWhile_jsWs, List.any_reverse,
    any_isBar_dropWhile_jsWs]

lemma jsIncludesBar_jsTrim (s : String) :
    jsIncludesBar (jsTrim s) = jsIncludesBar s :=
  trimL_any_isBar s.data

lemma takeWhile_notBar_dropWhile_jsWs (l : List Char) :
    (l.dropWhile jsWs).takeWhile notBar = (l.takeWhile notBar).dropWhile jsWs := by
  induction l with
  | nil => rfl
  | cons c t ih =>
    by_cases h : jsWs c = true
    · rw [List.dropWhile_cons_of_pos h,
        List.takeWhile_cons_of_pos (jsWs_notBar h),
        List.dropWhile_cons_of_pos h, ih]
    · rw [List.dropWhile_cons_of_neg h]
      by_cases hb : notBar c = true
      · rw [List.takeWhile_cons_of_pos hb, List.dropWhile_cons_of_neg h]
      · rw [List.takeWhile_cons_of_neg hb]
        rfl

lemma dropWhile_eq_nil_of_all {w : List Char} (hw : w.all jsWs = true) :
    w.dropWhile jsWs = [] :=
  List.dropWhile_eq_nil_iff.2 (fun c hc => by
    exact List.all_eq_true.1 hw c hc)

lemma trimL_ws_left {w : List Char} (hw : w.all jsWs = true) (l : List Char) :
    trimL (w ++ l) = trimL l := by
  unfold trimL
  rw [List.dropWhile_append_of_pos (fun c hc => List.all_eq_true.1 hw c hc)]

lemma trimL_ws_right {w : List Char} (hw : w.all jsWs = true) (l : List Char) :
    trimL (l ++ w) = trimL l := by
  unfold trimL
  rw [List.dropWhile_append]
  by_cases h : (l.dropWhile jsWs).isEmpty = true
  · rw [if_pos h, dropWhile_eq_nil_of_all hw]
    rw [List.isEmpty_iff] at h
    rw [h]
  · rw [if_neg h, List.reverse_append,
      List.dropWhile_append_of_pos (fun c hc => by
        exact List.all_eq_true.1 hw c (List.mem_reverse.1 hc))]

lemma exists_trailing_ws (l : List Char) :
    ∃ w, l.dropWhile jsWs = trimL l ++ w ∧ w.all jsWs = true := by
  refine ⟨((l.dropWhile jsWs).reverse.takeWhile jsWs).reverse, ?_, ?_⟩
  · conv_lhs => rw [← List.reverse_reverse (l.dropWhile jsWs),
      ← List.takeWhile_append_dropWhile jsWs (l.dropWhile jsWs).reverse]
    rw [List.reverse_append]
    rfl
  · rw [List.all_reverse]
    exact List.all_takeWhile

lemma all_notBar_of_all_jsWs {w : List Char} (hw : w.all jsWs = true) :
    w.all notBar = true :=
  List.all_eq_true.2 (fun c hc => jsWs_notBar (List.all_eq_true.1 hw c hc))

lemma takeWhile_eq_self_of_all {x : List Char} (h : x.all notBar = true) :
    x.takeWhile notBar = x := by
  induction x with
  | nil => rfl
  | cons c t ih =>
    rw [List.all_cons, Bool.and_eq_true] at h
    rw [List.takeWhile_cons_of_pos h.1, ih h.2]

lemma takeWhile_length_eq {x : List Char}
    (h : (x.takeWhile notBar).length = x.length) : x.takeWhile notBar = x := by
  induction x with
  | nil => rfl
  | cons c t ih =>
    by_cases hb : notBar c = true
    · rw [List.takeWhile_cons_of_pos hb] at h ⊢
      rw [List.length_cons, List.length_cons] at h
      rw [ih (Nat.succ_injective h)]
    · rw [List.takeWhile_cons_of_neg hb] at h
      simp at h

lemma trimL_takeWhile_ws_right {w : List Char} (hw : w.all jsWs = true)
    (x : List Char) :
    trimL ((x ++ w).takeWhile notBar) = trimL (x.takeWhile notBar) := by
  rw [List.takeWhile_append]
  by_cases h : (x.takeWhile notBar).length = x.length
  · rw [if_pos h]
    have hx : x.takeWhile notBar = x := takeWhile_length_eq h
    rw [takeWhile_eq_self_of_all (all_notBar_of_all_jsWs hw),
      trimL_ws_right hw, hx]
  · rw [if_neg h]

lemma trimL_takeWhile_ws_left {w : List Char} (hw : w.all jsWs = true)
    (x : List Char) :
    trimL ((w ++ x).takeWhile notBar) = trimL (x.takeWhile notBar) := by
  rw [List.takeWhile_append_of_pos (fun c hc =>
        jsWs_notBar (List.all_eq_true.1 hw c hc)),
    trimL_ws_left hw]

lemma trimL_takeWhile_trimL (l : List Char) :
    trimL ((trimL l).takeWhile notBar) = trimL (l.takeWhile notBar) := by
  obtain ⟨w2, hd, hw2⟩ := exists_trailing_ws l
  have h1 : trimL (l.takeWhile notBar) =
      trimL ((l.dropWhile jsWs).takeWhile notBar) := by
    conv_lhs => rw [← List.takeWhile_append_dropWhile jsWs l]
    rw [trimL_takeWhile_ws_left List.all_takeWhile]
  rw [h1, hd, trimL_takeWhile_ws_right hw2]

lemma jsTrim_jsSplitBarHead_jsTrim (s : String) :
    jsTrim (jsSplitBarHead (jsTrim s)) = jsTrim (jsSplitBarHead s) :=
  congrArg String.mk (trimL_takeWhile_trimL s.data)

lemma jsIncludesBar_ne_empty {s : String} (h : jsIncludesBar s = true) :
    s ≠ "" := by
  intro he
  subst he
  exact absurd h (by decide)

/-! ## Claim C2: the static title rule -/

/-- C2, counterexample: a title whose bar-prefix trims to the empty
string is returned as the empty string, not as `null`; the spec's rule
(`specTitleRule`) maps it to `null`. The raw title `"|"` is such an
input. -/
theorem spec_C2_counterexample :
    normalizeTitle (String.mk ['|']) = some "" ∧
    specTitleRule (String.mk ['|']) = none := by
  constructor <;> decide

/-- C2, amended: the static title is the trimmed prefix before the first
bar when a bar is present — even when that prefix is empty — and
otherwise the trimmed text, with the empty string mapped to `null` only
in the bar-free case. -/
theorem spec_C2_amended (raw : String) :
    normalizeTitle raw = specTitleAmendedRule raw := by
  unfold normalizeTitle specTitleAmendedRule
  rw [jsIncludesBar_jsTrim]
  by_cases h : jsIncludesBar raw = true
  · simp [h, jsTrim_jsSplitBarHead_jsTrim]
  · simp [h]

/-! ## Claim C9: rendered-pass title vs static title rule -/

/-- C9, counterexample: on the whitespace-only raw title `" "` the
rendered pass keeps the string while the static rule yields `null`, so
the two title extractions are not the same function of the raw title. -/
theorem spec_C9_counterexample :
    renderedTitle (String.mk [' ']) = some (String.mk [' ']) ∧
    normalizeTitle (String.mk [' ']) = none := by
  constructor <;> decide

/-- C9, amended: the rendered pass's title extraction agrees with the
static rule on every raw title that contains a vertical bar or carries
no leading/trailing whitespace; the two differ only on bar-free titles
with surrounding whitespace, which the rendered pass does not trim. -/
theorem spec_C9_amended (raw : String)
    (h : jsTrim raw = raw ∨ jsIncludesBar raw = true) :
    renderedTitle raw = normalizeTitle raw := by
  unfold renderedTitle normalizeTitle
  rcases h with h | h
  · by_cases hb : jsIncludesBar raw = true
    · simp [hb, jsIncludesBar_ne_empty hb]
    · simp [hb, h]
  · simp [h, jsIncludesBar_ne_empty h]

/-- C9 witness: the amended agreement evaluated on the concrete raw
title `"News | My Site"`. -/
theorem spec_C9_amended_witness :
    renderedTitle "News | My Site" = normalizeTitle "News | My Site" ∧
    normalizeTitle "News | My Site" = some "News" :=
  ⟨spec_C9_amended "News | My Site" (Or.inr (by decide)), by decide⟩

/-! ## Claim C10: absolute URLs pass through `absolutize` unchanged -/

/-- C10: any source string matching the case-insensitive
`^https?:\/\/` test is returned by `absolutize` unchanged, for every
base URL and every resolution oracle. -/
theorem spec_C10 (resolve : String → String → Option String)
    (src base : String) (h : startsWithHttpScheme src = true) :
    absolutize resolve src base = src := by
  unfold absolutize
  by_cases he : src = ""
  · rw [if_pos he]
  · rw [if_neg he, if_pos h]

/-- C10 witness: a mixed-case absolute URL passes through unchanged even
under an oracle that would rewrite or reject it. -/
theorem spec_C10_witness :
    startsWithHttpScheme "HTTPS://Example.COM/a.png" = true ∧
    absolutize (fun _ _ => some "http://changed/") "HTTPS://Example.COM/a.png"
      "https://base/" = "HTTPS://Example.COM/a.png" :=
  ⟨by decide,
   spec_C10 (fun _ _ => some "http://changed/") "HTTPS://Example.COM/a.png"
     "https://base/" (by decide)⟩

/-! ## Sorting lemmas for the rendered image ranking -/

lemma mem_insertDescByArea {x o : ImgObj} :
    ∀ l, x ∈ insertDescByArea o l ↔ x = o ∨ x ∈ l := by
  intro l
  induction l with
  | nil => simp [insertDescByArea]
  | cons y ys ih =>
    unfold insertDescByArea
    by_cases h : o.area < y.area
    · rw [if_pos h]
      simp only [List.mem_cons, ih]
      tauto
    · rw [if_neg h]
      simp only [List.mem_cons]

lemma pairwise_insertDescByArea {o : ImgObj} :
    ∀ {l}, l.Pairwise (fun a b => b.area ≤ a.area) →
      (insertDescByArea o l).Pairwise (fun a b => b.area ≤ a.area) := by
  intro l
  induction l with
  | nil => intro _; simp [insertDescByArea]
  | cons y ys ih =>
    intro hp
    rw [List.pairwise_cons] at hp
    unfold insertDescByArea
    by_cases h : o.area < y.area
    · rw [if_pos h, List.pairwise_cons]
      refine ⟨?_, ih hp.2⟩
      intro z hz
      rcases mem_insertDescByArea ys |>.1 hz with hz | hz
      · subst hz
        exact Nat.le_of_lt h
      · exact hp.1 z hz
    · rw [if_neg h, List.pairwise_cons]
      refine ⟨?_, List.pairwise_cons.2 hp⟩
      intro z hz
      rcases List.mem_cons.1 hz with hz | hz
      · subst hz
        exact Nat.le_of_not_lt h
      · exact Nat.le_trans (hp.1 z hz) (Nat.le_of_not_lt h)

lemma pairwise_sortDescByArea :
    ∀ l : List ImgObj,
      (sortDescByArea l).Pairwise (fun a b => b.area ≤ a.area) := by
  intro l
  induction l with
  | nil => simp [sortDescByArea]
  | cons x xs ih => exact pairwise_insertDescByArea ih

lemma mem_sortDescByArea {x : ImgObj} :
    ∀ l, x ∈ sortDescByArea l ↔ x ∈ l := by
  intro l
  induction l with
  | nil => simp [sortDescByArea]
  | cons y ys ih =>
    unfold sortDescByArea
    rw [mem_insertDescByArea, ih, List.mem_cons]

lemma sortDescByArea_head_max {l : List ImgObj} {top : ImgObj}
    {rest : List ImgObj} (hs : sortDescByArea l = top :: rest)
    {o : ImgObj} (ho : o ∈ l) : o.area ≤ top.area := by
  have hmem : o ∈ sortDescByArea l := (mem_sortDescByArea l).2 ho
  rw [hs] at hmem
  rcases List.mem_cons.1 hmem with h | h
  · subst h
    exact Nat.le_refl _
  · have hp := pairwise_sortDescByArea l
    rw [hs, List.pairwise_cons] at hp
    exact hp.1 o h

/-! ## Claim C3: the rendered-pass image heuristic -/

/-- A rendered document whose only candidate matches the decorative
pattern and which has no qualifying images at all. -/
def cexRenderedDoc : RenderedDoc :=
  ⟨some "https://e.com/sprite.png", none, none, none, none, none, [],
   "", "https://e.com/"⟩

/-- C3, counterexample: the sprite candidate is "rejected" by the guard,
but with no qualifying image to replace it the code keeps it, so the bad
candidate IS returned as `previewImage` (the claim demands `null`). -/
theorem spec_C3_counterexample :
    spriteIconTest "https://e.com/sprite.png" = true ∧
    candidateRejected cexRenderedDoc = true ∧
    keptImages cexRenderedDoc = [] ∧
    (pageEvaluate (fun u _ => some u) cexRenderedDoc).2 =
      some "https://e.com/sprite.png" := by
  refine ⟨by decide, by decide, by decide, by decide⟩

/-- C3, amended: a missing/SVG/sprite-icon candidate is replaced by the
absolutized source of the largest-area qualifying image (both dimensions
at least 200, non-SVG source) when one exists; when none exists,
`previewImage` is null only if the candidate was missing — a
present-but-decorative candidate is still returned. An accepted
candidate is returned as-is (absolutized). -/
theorem spec_C3_amended (resolve : String → String → Option String)
    (d : RenderedDoc) :
    (candidateRejected d = true → sortedKept d = [] →
      (pageEvaluate resolve d).2 =
        jsTruthyOpt ((renderedCandidate d).map
          (fun v => jsAbs resolve v d.locationHref))) ∧
    (∀ top rest, candidateRejected d = true → sortedKept d = top :: rest →
      (pageEvaluate resolve d).2 =
        jsTruthyOpt (some (jsAbs resolve top.src d.locationHref)) ∧
      ∀ o ∈ keptImages d, o.area ≤ top.area) ∧
    (∀ v, candidateRejected d = false → renderedCandidate d = some v →
      (pageEvaluate resolve d).2 =
        jsTruthyOpt (some (jsAbs resolve v d.locationHref))) := by
  refine ⟨?_, ?_, ?_⟩
  · intro hr hs
    have hc : candAfterFallback d = renderedCandidate d := by
      unfold candAfterFallback
      cases hcand : renderedCandidate d with
      | none => rw [hs]
      | some v =>
        have hb : looksBad v = true := by
          unfold candidateRejected at hr
          rw [hcand] at hr
          exact hr
        dsimp only
        simp [hb, hs]
    simp only [pageEvaluate]
    rw [hc]
  · intro top rest hr hs
    have hc : candAfterFallback d = some top.src := by
      unfold candAfterFallback
      cases hcand : renderedCandidate d with
      | none => rw [hs]
      | some v =>
        have hb : looksBad v = true := by
          unfold candidateRejected at hr
          rw [hcand] at hr
          exact hr
        dsimp only
        simp [hb, hs]
    constructor
    · simp only [pageEvaluate]
      rw [hc]
      rfl
    · intro o ho
      exact sortDescByArea_head_max hs ho
  · intro v hr hcand
    have hb : looksBad v = false := by
      unfold candidateRejected at hr
      rw [hcand] at hr
      exact hr
    have hc : candAfterFallback d = some v := by
      unfold candAfterFallback
      rw [hcand]
      dsimp only
      simp [hb]
    simp only [pageEvaluate]
    rw [hc]
    rfl

/-- C3 witness: the amended behavior evaluated concretely — a sprite
candidate together with one qualifying 300×400 image: the image's source
wins; with no qualifying image the sprite candidate is kept (see the
counterexample). -/
theorem spec_C3_amended_witness :
    candidateRejected
        ⟨some "https://e.com/sprite.png", none, none, none, none, none,
         [⟨"https://e.com/hero.jpg", "", 300, 400⟩], "",
         "https://e.com/"⟩ = true ∧
    (pageEvaluate (fun u _ => some u)
        ⟨some "https://e.com/sprite.png", none, none, none, none, none,
         [⟨"https://e.com/hero.jpg", "", 300, 400⟩], "",
         "https://e.com/"⟩).2 = some "https://e.com/hero.jpg" := by
  refine ⟨by decide, ?_⟩
  have h := (spec_C3_amended (fun u _ => some u)
    ⟨some "https://e.com/sprite.png", none, none, none, none, none,
     [⟨"https://e.com/hero.jpg", "", 300, 400⟩], "",
     "https://e.com/"⟩).2.1
    ⟨"https://e.com/hero.jpg", 120000, 300, 400⟩ [] (by decide) (by decide)
  rw [h.1]
  decide

/-! ## Orchestration lemmas -/

lemma scrapeOne_fst (resolve : String → String → Option String)
    (e : UrlEnv) (url : String) (st : BState) :
    (scrapeOne resolve e url st).1 = resultFor resolve e url := by
  obtain ⟨f, rnd⟩ := e
  cases f with
  | httpError s t => rfl
  | netError m => rfl
  | ok doc =>
    simp only [scrapeOne, resultFor]
    by_cases h : (jsFalsyOptStr (extractCheerio resolve doc url).1 &&
        jsFalsyOptStr (extractCheerio resolve doc url).2) = true
    · rw [if_pos h, if_pos h]
      cases rnd <;> rfl
    · rw [if_neg h, if_neg h]

lemma escalates_ok (resolve : String → String → Option String)
    (doc : StaticDoc) (rnd : RenderOutcome) (url : String) :
    escalates resolve ⟨.ok doc, rnd⟩ url =
      (jsFalsyOptStr (extractCheerio resolve doc url).1 &&
       jsFalsyOptStr (extractCheerio resolve doc url).2) := rfl

lemma scrapeOne_snd (resolve : String → String → Option String)
    (e : UrlEnv) (url : String) (st : BState) :
    (scrapeOne resolve e url st).2 =
      if escalates resolve e url = true then escalatedState e st else st := by
  obtain ⟨f, rnd⟩ := e
  cases f with
  | httpError s t => rfl
  | netError m => rfl
  | ok doc =>
    simp only [scrapeOne, escalates, escalatedState]
    by_cases h : (jsFalsyOptStr (extractCheerio resolve doc url).1 &&
        jsFalsyOptStr (extractCheerio resolve doc url).2) = true
    · rw [if_pos h, if_pos h]
      cases rnd <;> rfl
    · rw [if_neg h, if_neg h]

lemma escalatedState_launched (e : UrlEnv) (st : BState) :
    (escalatedState e st).launched = true := by
  unfold escalatedState
  cases e.render <;> cases h : st.launched <;> simp [h]

lemma escalatedState_launches (e : UrlEnv) (st : BState) :
    (escalatedState e st).launches =
      st.launches + (if st.launched then 0 else 1) := by
  unfold escalatedState
  cases e.render <;> cases h : st.launched <;> simp [h]

lemma scrapeOne_launched (resolve : String → String → Option String)
    (e : UrlEnv) (url : String) (st : BState) :
    (scrapeOne resolve e url st).2.launched =
      (st.launched || escalates resolve e url) := by
  rw [scrapeOne_snd]
  by_cases h : escalates resolve e url = true
  · rw [if_pos h, escalatedState_launched, h, Bool.or_true]
  · rw [if_neg h, Bool.eq_false_iff.2 h, Bool.or_false]

lemma scrapeOne_launches (resolve : String → String → Option String)
    (e : UrlEnv) (url : String) (st : BState) :
    (scrapeOne resolve e url st).2.launches =
      st.launches +
        (if st.launched then 0
         else if escalates resolve e url then 1 else 0) := by
  rw [scrapeOne_snd]
  by_cases h : escalates resolve e url = true
  · rw [if_pos h, escalatedState_launches, h]
    cases hl : st.launched <;> simp
  · rw [if_neg h, Bool.eq_false_iff.2 h]
    cases hl : st.launched <;> simp

lemma runState_launched (resolve : String → String → Option String)
    (env : String → UrlEnv) :
    ∀ (urls : List String) (st : BState),
      (runState resolve env urls st).launched =
        (st.launched || urls.any (fun u => escalates resolve (env u) u)) := by
  intro urls
  induction urls with
  | nil => intro st; simp [runState]
  | cons u rest ih =>
    intro st
    show (runState resolve env rest (scrapeOne resolve (env u) u st).2).launched = _
    rw [ih, scrapeOne_launched, List.any_cons, Bool.or_assoc]

lemma runState_launches (resolve : String → String → Option String)
    (env : String → UrlEnv) :
    ∀ (urls : List String) (st : BState),
      (runState resolve env urls st).launches =
        st.launches +
          (if st.launched then 0
           else if urls.any (fun u => escalates resolve (env u) u) then 1
           else 0) := by
  intro urls
  induction urls with
  | nil => intro st; simp [runState]
  | cons u rest ih =>
    intro st
    show (runState resolve env rest (scrapeOne resolve (env u) u st).2).launches = _
    rw [ih, scrapeOne_launches, scrapeOne_launched, List.any_cons]
    cases hl : st.launched <;> cases he : escalates resolve (env u) u <;> simp

lemma foldl_stepUrl (resolve : String → String → Option String)
    (env : String → UrlEnv) :
    ∀ (urls : List String) (acc : List OutRecord) (st : BState),
      urls.foldl (stepUrl resolve env) (acc, st) =
        (acc ++ urls.map (recordFor resolve env),
         runState resolve env urls st) := by
  intro urls
  induction urls with
  | nil => intro acc st; simp [runState]
  | cons u rest ih =>
    intro acc st
    rw [List.foldl_cons, List.map_cons]
    show rest.foldl (stepUrl resolve env)
        (acc ++ [outRecOf u (scrapeOne resolve (env u) u st).1],
         (scrapeOne resolve (env u) u st).2) = _
    rw [ih, scrapeOne_fst]
    refine congrArg₂ Prod.mk ?_ rfl
    rw [List.append_assoc]
    rfl

lemma escalatedState_renderAttempts (e : UrlEnv) (st : BState) :
    (escalatedState e st).renderAttempts = st.renderAttempts + 1 := by
  unfold escalatedState
  cases e.render <;> cases h : st.launched <;> simp [h]

lemma escalatedState_pagesOpened (e : UrlEnv) (st : BState) :
    (escalatedState e st).pagesOpened = st.pagesOpened + 1 := by
  unfold escalatedState
  cases e.render <;> cases h : st.launched <;> simp [h]

lemma escalatedState_pagesClosed_nav (f : FetchOutcome) (m : String)
    (st : BState) :
    (escalatedState ⟨f, .navError m⟩ st).pagesClosed = st.pagesClosed := by
  unfold escalatedState
  cases h : st.launched <;> simp [h]

lemma escalatedState_pagesClosed_ok (f : FetchOutcome) (rdoc : RenderedDoc)
    (st : BState) :
    (escalatedState ⟨f, .ok rdoc⟩ st).pagesClosed = st.pagesClosed + 1 := by
  unfold escalatedState
  cases h : st.launched <;> simp [h]

lemma jsFalsyOptStr_iff (o : Option String) :
    jsFalsyOptStr o = true ↔ (o = none ∨ o = some "") := by
  cases o with
  | none => simp [jsFalsyOptStr]
  | some v => simp [jsFalsyOptStr]

/-! ## Concrete fixtures for witnesses and counterexamples -/

/-- A resolution oracle on which every `new URL` would throw. -/
def resolve0 : String → String → Option String := fun _ _ => none

/-- A static document with no title text and no image candidates. -/
def emptyStaticDoc : StaticDoc :=
  ⟨"", .empty, .empty, .empty, .empty, .empty, .empty⟩

/-- A rendered document with nothing in it. -/
def emptyRenderedDoc : RenderedDoc :=
  ⟨none, none, none, none, none, none, [], "", ""⟩

/-- A static document whose title is `"|x"`: the bar prefix trims to the
empty string. -/
def barOnlyDoc : StaticDoc :=
  ⟨"|x", .empty, .empty, .empty, .empty, .empty, .empty⟩

/-- A static document with a plain title and no images. -/
def titledDoc : StaticDoc :=
  ⟨"T", .empty, .empty, .empty, .empty, .empty, .empty⟩

/-- A static document carrying both an OG image and a Twitter image. -/
def ogTwitterDoc : StaticDoc :=
  ⟨"T", ⟨some "https://a/og.png", none, none⟩, .empty,
   ⟨some "https://a/tw.png", none, none⟩, .empty, .empty, .empty⟩

/-- A batch environment where exactly the URL `"https://b/"` suffers an
HTTP 404 on the static fetch. -/
def env404 : String → UrlEnv := fun u =>
  if u = "https://b/" then ⟨.httpError 404 "Not Found", .ok emptyRenderedDoc⟩
  else ⟨.ok titledDoc, .ok emptyRenderedDoc⟩

/-! ## Claim C1: the escalation trigger -/

/-- C1, counterexample: a static result with the NON-NULL title `""`
(raw title `"|x"`) and null previewImage does escalate — one rendered
attempt happens — contradicting "a non-null title never escalates" and
the "both fields null" biconditional. -/
theorem spec_C1_counterexample :
    (extractCheerio resolve0 barOnlyDoc "https://a/").1 = some "" ∧
    some "" ≠ (none : Option String) ∧
    (extractCheerio resolve0 barOnlyDoc "https://a/").2 = none ∧
    (scrapeOne resolve0 ⟨.ok barOnlyDoc, .ok emptyRenderedDoc⟩ "https://a/"
        BState.init).2.renderAttempts = 1 := by
  refine ⟨by decide, by decide, by decide, by decide⟩

/-- C1, amended: for a URL whose static fetch succeeds, the rendered
pass is attempted exactly once if and only if the static title is null
OR the empty string AND the static previewImage is null or the empty
string (JS falsiness); a static result with a non-null, non-empty title
never escalates. -/
theorem spec_C1_amended (resolve : String → String → Option String)
    (doc : StaticDoc) (rnd : RenderOutcome) (url : String) (st : BState) :
    ((scrapeOne resolve ⟨.ok doc, rnd⟩ url st).2.renderAttempts =
      st.renderAttempts +
        (if escalates resolve ⟨.ok doc, rnd⟩ url then 1 else 0)) ∧
    ((scrapeOne resolve ⟨.ok doc, rnd⟩ url st).2.renderAttempts =
        st.renderAttempts + 1 ↔
      ((extractCheerio resolve doc url).1 = none ∨
       (extractCheerio resolve doc url).1 = some "") ∧
      ((extractCheerio resolve doc url).2 = none ∨
       (extractCheerio resolve doc url).2 = some "")) := by
  have h1 : (scrapeOne resolve ⟨.ok doc, rnd⟩ url st).2.renderAttempts =
      st.renderAttempts +
        (if escalates resolve ⟨.ok doc, rnd⟩ url then 1 else 0) := by
    rw [scrapeOne_snd]
    by_cases h : escalates resolve ⟨.ok doc, rnd⟩ url = true
    · rw [if_pos h, escalatedState_renderAttempts, if_pos h]
    · rw [if_neg h, if_neg h]
      exact (Nat.add_zero _).symm
  refine ⟨h1, ?_⟩
  rw [h1]
  by_cases he : escalates resolve ⟨.ok doc, rnd⟩ url = true
  · rw [if_pos he]
    have hb : (jsFalsyOptStr (extractCheerio resolve doc url).1 &&
        jsFalsyOptStr (extractCheerio resolve doc url).2) = true :=
      escalates_ok resolve doc rnd url ▸ he
    rw [Bool.and_eq_true] at hb
    exact ⟨fun _ => ⟨(jsFalsyOptStr_iff _).1 hb.1,
                     (jsFalsyOptStr_iff _).1 hb.2⟩, fun _ => rfl⟩
  · rw [if_neg he]
    constructor
    · intro heq
      omega
    · intro hc
      exfalso
      apply he
      rw [escalates_ok, Bool.and_eq_true]
      exact ⟨(jsFalsyOptStr_iff _).2 hc.1, (jsFalsyOptStr_iff _).2 hc.2⟩

/-! ## Claim C4: page lifecycle on the rendered pass -/

/-- C4, counterexample: an escalated URL whose navigation throws — the
error propagates (`Except.error`), the page was opened, but it is never
closed: lines 126-167 have no `try/finally`, so `page.close()` on line
167 is skipped when `page.goto` throws. -/
theorem spec_C4_counterexample :
    (scrapeOne resolve0 ⟨.ok emptyStaticDoc, .navError "nav timeout"⟩
        "https://a/" BState.init).1 = .error "nav timeout" ∧
    (scrapeOne resolve0 ⟨.ok emptyStaticDoc, .navError "nav timeout"⟩
        "https://a/" BState.init).2.pagesOpened = 1 ∧
    (scrapeOne resolve0 ⟨.ok emptyStaticDoc, .navError "nav timeout"⟩
        "https://a/" BState.init).2.pagesClosed = 0 := by
  refine ⟨rfl, by decide, by decide⟩

/-- C4, amended: on a successful escalation the opened page is closed
before returning; on a thrown navigation error the error propagates to
the caller, but the page that was opened is NOT closed by the rendered
pass (it is released only when the shared browser later closes). -/
theorem spec_C4_amended (resolve : String → String → Option String)
    (doc : StaticDoc) (rdoc : RenderedDoc) (m : String) (url : String)
    (st : BState) :
    (escalates resolve ⟨.ok doc, .ok rdoc⟩ url = true →
      (scrapeOne resolve ⟨.ok doc, .ok rdoc⟩ url st).2.pagesOpened =
        st.pagesOpened + 1 ∧
      (scrapeOne resolve ⟨.ok doc, .ok rdoc⟩ url st).2.pagesClosed =
        st.pagesClosed + 1) ∧
    (escalates resolve ⟨.ok doc, .navError m⟩ url = true →
      (scrapeOne resolve ⟨.ok doc, .navError m⟩ url st).1 = .error m ∧
      (scrapeOne resolve ⟨.ok doc, .navError m⟩ url st).2.pagesOpened =
        st.pagesOpened + 1 ∧
      (scrapeOne resolve ⟨.ok doc, .navError m⟩ url st).2.pagesClosed =
        st.pagesClosed) := by
  constructor
  · intro hesc
    rw [scrapeOne_snd, if_pos hesc, escalatedState_pagesOpened,
      escalatedState_pagesClosed_ok]
    exact ⟨rfl, rfl⟩
  · intro hesc
    refine ⟨?_, ?_, ?_⟩
    · rw [scrapeOne_fst]
      rw [escalates_ok] at hesc
      show (if (jsFalsyOptStr (extractCheerio resolve doc url).1 &&
            jsFalsyOptStr (extractCheerio resolve doc url).2) = true then
          Except.error m
        else Except.ok (SRecord.mk url (extractCheerio resolve doc url).1
          (extractCheerio resolve doc url).2)) = Except.error m
      rw [if_pos hesc]
    · rw [scrapeOne_snd, if_pos hesc, escalatedState_pagesOpened]
    · rw [scrapeOne_snd, if_pos hesc, escalatedState_pagesClosed_nav]

/-- C4 witness: the amended lifecycle evaluated on a concrete escalating
URL — page closed on success, left open on navigation failure. -/
theorem spec_C4_amended_witness :
    (scrapeOne resolve0 ⟨.ok emptyStaticDoc, .ok emptyRenderedDoc⟩
        "https://a/" BState.init).2.pagesClosed = 1 ∧
    (scrapeOne resolve0 ⟨.ok emptyStaticDoc, .navError "boom"⟩
        "https://a/" BState.init).2.pagesClosed = 0 :=
  ⟨((spec_C4_amended resolve0 emptyStaticDoc emptyRenderedDoc "boom"
      "https://a/" BState.init).1 (by decide)).2,
   ((spec_C4_amended resolve0 emptyStaticDoc emptyRenderedDoc "boom"
      "https://a/" BState.init).2 (by decide)).2.2⟩

/-! ## Claim C5: browser launch and release counts -/

/-- C5, counterexample: one escalating URL and an unexpected error at
the output step: the browser was launched, and `browser.close()` is
invoked twice — once on line 186 and once again in the catch on line
192 — not exactly once. -/
theorem spec_C5_counterexample :
    (runUrls resolve0 (fun _ => ⟨.ok emptyStaticDoc, .ok emptyRenderedDoc⟩)
        ["https://a/"]).2.launched = true ∧
    (runMain resolve0 (fun _ => ⟨.ok emptyStaticDoc, .ok emptyRenderedDoc⟩)
        ["https://a/"] true).closeCalls = 2 := by
  refine ⟨by decide, by decide⟩

/-- C5, amended: the launch is invoked at most once — exactly once when
at least one URL escalates, zero times otherwise; on a run whose output
step succeeds the close is invoked exactly once when a browser was
launched; when an unexpected error escapes the per-URL handling at the
output step, the close is invoked twice (the session close is treated as
idempotent). -/
theorem spec_C5_amended (resolve : String → String → Option String)
    (env : String → UrlEnv) (urls : List String) :
    ((runUrls resolve env urls).2.launches =
      if urls.any (fun u => escalates resolve (env u) u) then 1 else 0) ∧
    ((runMain resolve env urls false).closeCalls =
      if (runUrls resolve env urls).2.launched then 1 else 0) ∧
    ((runMain resolve env urls true).closeCalls =
      if (runUrls resolve env urls).2.launched then 2 else 0) := by
  have hrun := foldl_stepUrl resolve env urls [] BState.init
  rw [List.nil_append] at hrun
  refine ⟨?_, rfl, ?_⟩
  · show (urls.foldl (stepUrl resolve env) ([], BState.init)).2.launches = _
    rw [hrun]
    show (runState resolve env urls BState.init).launches = _
    rw [runState_launches]
    simp [BState.init]
  · cases h : (runUrls resolve env urls).2.launched <;>
      simp [runMain, h]

/-! ## Claim C6: static fetch failure handling -/

/-- C6: an HTTP-status failure throws a message `"<status> <statusText>"`
and a transport failure throws its own message; in both cases `scrapeOne`
returns that error with the session state untouched (no launch, no page,
no render attempt), and the loop records `{url, error: message}` for the
URL and nothing else. -/
theorem spec_C6 (resolve : String → String → Option String) (s : Nat)
    (t m : String) (rnd : RenderOutcome) (url : String) (st : BState)
    (recs : List OutRecord) :
    scrapeOne resolve ⟨.httpError s t, rnd⟩ url st =
      (.error (toString s ++ " " ++ t), st) ∧
    scrapeOne resolve ⟨.netError m, rnd⟩ url st = (.error m, st) ∧
    stepUrl resolve (fun _ => ⟨.httpError s t, rnd⟩) (recs, st) url =
      (recs ++ [⟨url, none, none, some (toString s ++ " " ++ t)⟩], st) ∧
    stepUrl resolve (fun _ => ⟨.netError m, rnd⟩) (recs, st) url =
      (recs ++ [⟨url, none, none, some m⟩], st) :=
  ⟨rfl, rfl, rfl, rfl⟩

/-! ## Claim C8: batch shape, ordering and independence -/

/-- C8: the output is exactly one record per input URL in input order —
the map of a per-URL record function over the input list; every record
is either a success shape (`error` absent, `title`/`previewImage`
present) or a failure shape (`error` present, the others absent), never
a mix; and a URL's record depends only on that URL's own environment, so
one URL's failure cannot change another's record. -/
theorem spec_C8 (resolve : String → String → Option String)
    (env : String → UrlEnv) (urls : List String) :
    ((runUrls resolve env urls).1 = urls.map (recordFor resolve env)) ∧
    (∀ r, r ∈ (runUrls resolve env urls).1 →
      (r.error = none ∧ r.title ≠ none ∧ r.previewImage ≠ none) ∨
      (r.error ≠ none ∧ r.title = none ∧ r.previewImage = none)) ∧
    (∀ env2 : String → UrlEnv, ∀ url, env url = env2 url →
      recordFor resolve env url = recordFor resolve env2 url) := by
  have hrun := foldl_stepUrl resolve env urls [] BState.init
  rw [List.nil_append] at hrun
  have h1 : (runUrls resolve env urls).1 = urls.map (recordFor resolve env) := by
    show (urls.foldl (stepUrl resolve env) ([], BState.init)).1 = _
    rw [hrun]
  refine ⟨h1, ?_, ?_⟩
  · intro r hr
    rw [h1] at hr
    obtain ⟨u, _, hu⟩ := List.mem_map.1 hr
    rw [← hu]
    unfold recordFor
    cases hres : resultFor resolve (env u) u with
    | error m => right; simp [outRecOf]
    | ok rec => left; simp [outRecOf]
  · intro env2 url h
    unfold recordFor
    rw [h]

/-- C8 witness: a two-URL batch where the second URL 404s — the output
is the two expected records in order, and the failure record has the
failure shape. -/
theorem spec_C8_witness :
    (runUrls resolve0 env404 ["https://a/", "https://b/"]).1 =
      [⟨"https://a/", some (some "T"), some none, none⟩,
       ⟨"https://b/", none, none, some "404 Not Found"⟩] ∧
    (((⟨"https://b/", none, none, some "404 Not Found"⟩ : OutRecord).error
        = none ∧
      (⟨"https://b/", none, none, some "404 Not Found"⟩ : OutRecord).title
        ≠ none ∧
      (⟨"https://b/", none, none, some "404 Not Found"⟩ :
        OutRecord).previewImage ≠ none) ∨
     ((⟨"https://b/", none, none, some "404 Not Found"⟩ : OutRecord).error
        ≠ none ∧
      (⟨"https://b/", none, none, some "404 Not Found"⟩ : OutRecord).title
        = none ∧
      (⟨"https://b/", none, none, some "404 Not Found"⟩ :
        OutRecord).previewImage = none)) :=
  ⟨by decide,
   (spec_C8 resolve0 env404 ["https://a/", "https://b/"]).2.1
     ⟨"https://b/", none, none, some "404 Not Found"⟩ (by decide)⟩

/-! ## Claim C7: static image selector priority -/

lemma firstImgVal_eq_find (resolve : String → String → Option String)
    (base : String) :
    ∀ l : List SelAttrs,
      firstImgVal resolve base l =
        ((l.filterMap candVal).find? (fun v => v ≠ "")).map
          (fun v => absolutize resolve v base) := by
  intro l
  induction l with
  | nil => rfl
  | cons a rest ih =>
    unfold firstImgVal
    cases hc : candVal a with
    | none =>
      show firstImgVal resolve base rest = _
      rw [List.filterMap_cons_none hc, ih]
    | some v =>
      show (if v = "" then firstImgVal resolve base rest
            else some (absolutize resolve v base)) = _
      rw [List.filterMap_cons_some hc]
      by_cases hv : v = ""
      · subst hv
        rw [if_pos rfl, List.find?_cons_of_neg _ (by simp), ih]
      · rw [if_neg hv, List.find?_cons_of_pos _ (by simp [hv])]
        rfl

/-- C7: the static previewImage equals the spec-side rule — the first
candidate value in the fixed selector priority order whose value is
non-empty, absolutized against the page URL (so an OG `property` image
beats a Twitter image); and when URL resolution fails, `absolutize`
returns the raw string unchanged. -/
theorem spec_C7 (resolve : String → String → Option String)
    (d : StaticDoc) (base : String) :
    ((extractCheerio resolve d base).2 = specStaticImage resolve d base) ∧
    (∀ v, d.ogImageProp.content = some v → v ≠ "" →
      (extractCheerio resolve d base).2 = some (absolutize resolve v base)) ∧
    (∀ src b2, resolve src b2 = none → absolutize resolve src b2 = src) := by
  refine ⟨?_, ?_, ?_⟩
  · exact firstImgVal_eq_find resolve base (selectorList d)
  · intro v hv hne
    have hc : candVal d.ogImageProp = some v := by
      unfold candVal
      rw [hv]
    show firstImgVal resolve base (selectorList d) = _
    rw [firstImgVal_eq_find]
    unfold selectorList
    rw [List.filterMap_cons_some hc,
      List.find?_cons_of_pos _ (by simp [hne])]
    rfl
  · intro src b2 h
    unfold absolutize
    by_cases he : src = ""
    · rw [if_pos he]
    · rw [if_neg he]
      by_cases hs : startsWithHttpScheme src = true
      · rw [if_pos hs]
      · rw [if_neg hs, h]

/-- C7 witness: OG beats Twitter on a concrete document, and a failing
resolution passes the raw relative string through. -/
theorem spec_C7_witness :
    (extractCheerio resolve0 ogTwitterDoc "https://a/").2 =
      some "https://a/og.png" ∧
    absolutize resolve0 "img/x.png" "https://a/" = "img/x.png" :=
  ⟨by rw [(spec_C7 resolve0 ogTwitterDoc "https://a/").2.1 "https://a/og.png"
        rfl (by decide)]
      decide,
   (spec_C7 resolve0 ogTwitterDoc "https://a/").2.2 "img/x.png" "https://a/"
     rfl⟩

end UrlPreview
